import Mathlib

/-!
# Verification of the EC2 stop-automation Lambda (`src/lambda.py`)

Shallow embedding of the module `lambda.py`: the tag-exclusion predicate
`should_exclude`, the configuration parsing of `EXCLUDE_TAG_KEY` /
`EXCLUDE_TAG_VALUES`, and the orchestrator `lambda_handler`.

Modelling conventions:
* Python dictionaries with possibly-missing keys become structures with
  `Option` fields (`inst.get('InstanceId')` is `Instance.instanceId : Option String`).
* The two remote clients (`ec2`, `sns`) are modelled by an environment record
  `Env` holding the response each remote call would produce; exceptions are
  `Except` errors carrying a `PyErr` that distinguishes `botocore`
  `ClientError` from any other exception (the success-path publish handler
  catches only `ClientError`).
* A run's observable behaviour is a `RunResult`: the returned value or the
  re-raised exception, plus the list of stop calls and publish calls issued,
  in order.
* Python `str` of a list of optional strings (the f-string
  `f"Stopped EC2 instances: {instances_to_stop}"`) is modelled by
  `pyReprList`, exact for identifiers free of quotes and backslashes, which
  instance identifiers are.
-/

/-- One entry of an instance's `Tags` list: a dict that may lack
`'Key'` or `'Value'` (`t.get('Key')`, `t.get('Value')`). -/
structure Tag where
  key : Option String
  value : Option String
deriving DecidableEq

/-- An instance record as consumed by the code: `inst.get('InstanceId')` and
`instance.get('Tags', []) or []` (absent or `None` tags collapse to `[]`). -/
structure Instance where
  instanceId : Option String
  tags : Option (List Tag)
deriving DecidableEq

/-- A Python exception, distinguishing `botocore.exceptions.ClientError`
(the only class caught by the success-path publish handler) from every
other exception class. The payload is `str(e)`. -/
inductive PyErr where
  | clientError (msg : String)
  | otherError (msg : String)
deriving DecidableEq

/-- `str(e)` for a modelled exception. -/
def PyErr.msg : PyErr → String
  | .clientError m => m
  | .otherError m => m

/-- `EXCLUDE_TAG_KEY = os.environ.get('EXCLUDE_TAG_KEY', 'Environment')`. -/
def parseExcludeTagKey (raw : Option String) : String :=
  raw.getD "Environment"

/-- One character of the whitespace Python's argumentless `str.strip()`
removes (ASCII part). -/
def pyIsSpace (c : Char) : Bool :=
  c = ' ' || c = '\t' || c = '\n' || c = '\x0d' || c = '\x0b' || c = '\x0c'

/-- Python `str.strip()`: drop leading and trailing whitespace. -/
def pyStrip (s : String) : String :=
  ⟨((s.data.dropWhile pyIsSpace).reverse.dropWhile pyIsSpace).reverse⟩

/-- Python `str.split(',')` over the character list: split at every comma,
keeping empty fields, so the empty string yields one empty field
(`"".split(',') == ['']`). -/
def pySplitComma : List Char → List (List Char)
  | [] => [[]]
  | c :: rest =>
      if c = ',' then [] :: pySplitComma rest
      else
        match pySplitComma rest with
        | [] => [[c]]
        | group :: groups => (c :: group) :: groups

/-- `EXCLUDE_TAG_VALUES = [v.strip() for v in os.environ.get('EXCLUDE_TAG_VALUES', '').split(',') if v.strip()]`. -/
def EXCLUDE_TAG_VALUES (raw : Option String) : List String :=
  (pySplitComma (raw.getD "").data).filterMap fun v =>
    let s := pyStrip ⟨v⟩
    if s = "" then none else some s

/-- `should_exclude(instance)` from `lambda.py`, with the module-level
configuration (`EXCLUDE_TAG_KEY`, `EXCLUDE_TAG_VALUES`) passed explicitly:
scans the tag list and returns `True` on the first entry whose `Key` equals
the configured key and whose `Value` is in the configured value list. -/
def should_exclude (excludeTagKey : String) (excludeTagValues : List String)
    (inst : Instance) : Bool :=
  (inst.tags.getD []).any fun t =>
    t.key == some excludeTagKey &&
      (match t.value with
       | some v => excludeTagValues.contains v
       | none => false)

/-- The remote environment of one invocation: module configuration plus the
behaviour of the two service clients. `fetchResult` is the
`describe_instances` response (the `Reservations` list, each reservation
reduced to its `Instances` list) or the exception it raises; `stopResult`
and `publishResult` give the outcome of `stop_instances` / `sns.publish`
as a function of their arguments. -/
structure Env where
  snsTopicArn : Option String
  excludeTagKeyRaw : Option String
  excludeTagValuesRaw : Option String
  fetchResult : Except PyErr (List (List Instance))
  stopResult : List (Option String) → Except PyErr Unit
  publishResult : String → String → Except PyErr Unit

/-- The value returned by `lambda_handler` on the success path:
`{ 'status': 'ok', 'message': message }`. -/
structure Outcome where
  status : String
  message : String
deriving DecidableEq

deriving instance DecidableEq for Except

/-- Observable behaviour of one run: the returned dict or the re-raised
exception's `str`, the `stop_instances` calls issued (each a list of
instance ids), and the `sns.publish` calls issued (subject, message). -/
structure RunResult where
  outcome : Except String Outcome
  stopCalls : List (List (Option String))
  publishCalls : List (String × String)
deriving DecidableEq

/-- Python `repr` of an optional string (`None` or a quoted string);
exact for strings without quotes or backslashes. -/
def pyReprOptStr : Option String → String
  | none => "None"
  | some s => "'" ++ s ++ "'"

/-- Python `str`/`repr` of a list of optional strings, e.g. `['i-1', 'i-2']`. -/
def pyReprList (xs : List (Option String)) : String :=
  "[" ++ String.intercalate ", " (xs.map pyReprOptStr) ++ "]"

/-- The `instances_to_stop` accumulation of `lambda_handler`: flatten the
reservations and keep the `InstanceId` of every instance `should_exclude`
does not reject, in order. -/
def instancesToStop (env : Env) (reservations : List (List Instance)) :
    List (Option String) :=
  reservations.flatten.filterMap fun inst =>
    if should_exclude (parseExcludeTagKey env.excludeTagKeyRaw)
        (EXCLUDE_TAG_VALUES env.excludeTagValuesRaw) inst then
      none
    else
      some inst.instanceId

/-- The `except Exception as e:` block of `lambda_handler`: if a topic is
configured, attempt one error publish (subject `'EC2 Stop Lambda Error'`,
body `str(e)`) whose own exception is swallowed by `except Exception: pass`,
then re-raise `e`. `stops`/`pubs` are the calls already issued before the
exception. -/
def handleException (env : Env) (stops : List (List (Option String)))
    (pubs : List (String × String)) (e : PyErr) : RunResult :=
  match env.snsTopicArn with
  | none => ⟨.error e.msg, stops, pubs⟩
  | some _ =>
      match env.publishResult "EC2 Stop Lambda Error" e.msg with
      | _ => ⟨.error e.msg, stops, pubs ++ [("EC2 Stop Lambda Error", e.msg)]⟩

/-- The tail of the `try` block: `if SNS_TOPIC_ARN:` publish the summary
(subject `'EC2 Stop Notification'`), catching only `ClientError`; any other
publish exception escapes to the outer handler. Then return
`{ 'status': 'ok', 'message': message }`. -/
def finishRun (env : Env) (message : String)
    (stops : List (List (Option String))) : RunResult :=
  match env.snsTopicArn with
  | none => ⟨.ok ⟨"ok", message⟩, stops, []⟩
  | some _ =>
      match env.publishResult "EC2 Stop Notification" message with
      | .ok _ =>
          ⟨.ok ⟨"ok", message⟩, stops, [("EC2 Stop Notification", message)]⟩
      | .error (.clientError _) =>
          -- caught by `except ClientError`, logged, run continues
          ⟨.ok ⟨"ok", message⟩, stops, [("EC2 Stop Notification", message)]⟩
      | .error (.otherError m) =>
          -- not a ClientError: escapes to the outer `except Exception`
          handleException env stops [("EC2 Stop Notification", message)]
            (.otherError m)

/-- `lambda_handler(event, context)` from `lambda.py`. The `event`/`context`
arguments are unused by the code; the ambient state (clients, configuration)
is `env`. -/
def lambda_handler (env : Env) : RunResult :=
  match env.fetchResult with
  | .error e => handleException env [] [] e
  | .ok reservations =>
      let ids := instancesToStop env reservations
      if ids.isEmpty then
        finishRun env "No eligible instances to stop." []
      else
        match env.stopResult ids with
        | .error e => handleException env [ids] [] e
        | .ok _ =>
            finishRun env ("Stopped EC2 instances: " ++ pyReprList ids) [ids]

/-- Exclusion predicate as claim C7 words it: the decision is made on the
first occurrence of the configured key in the tag list (equivalently, a
mapping lookup taking the first binding). Stated from the spec's words, for
comparison with `should_exclude`. -/
def should_exclude_first (excludeTagKey : String)
    (excludeTagValues : List String) (inst : Instance) : Bool :=
  match (inst.tags.getD []).find? (fun t => t.key == some excludeTagKey) with
  | some t =>
      match t.value with
      | some v => excludeTagValues.contains v
      | none => false
  | none => false

/-! ## Helper lemmas -/

/-- `should_exclude` holds iff some tag entry has the configured key and a
value in the configured list (the loop checks every entry, not only the
first occurrence of the key). -/
lemma should_exclude_iff (key : String) (vals : List String) (inst : Instance) :
    should_exclude key vals inst = true ↔
      ∃ t, t ∈ inst.tags.getD [] ∧ t.key = some key ∧
        ∃ v, t.value = some v ∧ v ∈ vals := by
  simp only [should_exclude, List.any_eq_true, Bool.and_eq_true, beq_iff_eq]
  constructor
  · rintro ⟨t, ht, hk, hv⟩
    cases hval : t.value with
    | none => rw [hval] at hv; simp at hv
    | some v =>
        rw [hval] at hv
        exact ⟨t, ht, hk, v, hval, List.elem_iff.mp hv⟩
  · rintro ⟨t, ht, hk, v, hval, hv⟩
    refine ⟨t, ht, hk, ?_⟩
    rw [hval]
    exact List.elem_iff.mpr hv

/-- Membership in `instancesToStop`: exactly the ids of non-excluded fetched
instances. -/
lemma mem_instancesToStop (env : Env) (res : List (List Instance))
    (id : Option String) :
    id ∈ instancesToStop env res ↔
      ∃ inst, inst ∈ res.flatten ∧ inst.instanceId = id ∧
        should_exclude (parseExcludeTagKey env.excludeTagKeyRaw)
          (EXCLUDE_TAG_VALUES env.excludeTagValuesRaw) inst = false := by
  simp only [instancesToStop, List.mem_filterMap]
  constructor
  · rintro ⟨inst, hmem, hf⟩
    by_cases h : should_exclude (parseExcludeTagKey env.excludeTagKeyRaw)
        (EXCLUDE_TAG_VALUES env.excludeTagValuesRaw) inst
    · rw [if_pos h] at hf; cases hf
    · rw [if_neg h] at hf
      exact ⟨inst, hmem, Option.some.inj hf, Bool.not_eq_true _ ▸ by simpa using h⟩
  · rintro ⟨inst, hmem, hid, hex⟩
    refine ⟨inst, hmem, ?_⟩
    rw [if_neg (by simp [hex]), hid]

/-- `handleException` always re-raises the exception. -/
lemma handleException_outcome (env : Env) (stops : List (List (Option String)))
    (pubs : List (String × String)) (e : PyErr) :
    (handleException env stops pubs e).outcome = .error e.msg := by
  unfold handleException
  cases env.snsTopicArn <;> rfl

/-- `handleException` issues no further stop calls. -/
lemma handleException_stopCalls (env : Env) (stops : List (List (Option String)))
    (pubs : List (String × String)) (e : PyErr) :
    (handleException env stops pubs e).stopCalls = stops := by
  unfold handleException
  cases env.snsTopicArn <;> rfl

/-- With a topic configured, `handleException` appends exactly one error
publish attempt, whatever `publishResult` does. -/
lemma handleException_publishCalls (env : Env) (arn : String)
    (stops : List (List (Option String))) (pubs : List (String × String))
    (e : PyErr) (h : env.snsTopicArn = some arn) :
    (handleException env stops pubs e).publishCalls =
      pubs ++ [("EC2 Stop Lambda Error", e.msg)] := by
  unfold handleException
  rw [h]

/-- Without a topic, `handleException` publishes nothing. -/
lemma handleException_publishCalls_none (env : Env)
    (stops : List (List (Option String))) (pubs : List (String × String))
    (e : PyErr) (h : env.snsTopicArn = none) :
    (handleException env stops pubs e).publishCalls = pubs := by
  unfold handleException
  rw [h]

/-- `finishRun` issues no stop calls of its own. -/
lemma finishRun_stopCalls (env : Env) (m : String)
    (stops : List (List (Option String))) :
    (finishRun env m stops).stopCalls = stops := by
  unfold finishRun
  cases env.snsTopicArn with
  | none => rfl
  | some a =>
      cases hp : env.publishResult "EC2 Stop Notification" m with
      | ok u => rfl
      | error e =>
          cases e with
          | clientError s => rfl
          | otherError s => exact handleException_stopCalls ..

/-- Whenever `finishRun` returns (rather than raising), the returned dict is
`{'status': 'ok', 'message': m}`. -/
lemma finishRun_outcome_ok (env : Env) (m : String)
    (stops : List (List (Option String))) (o : Outcome)
    (h : (finishRun env m stops).outcome = .ok o) : o = ⟨"ok", m⟩ := by
  unfold finishRun at h
  cases harn : env.snsTopicArn with
  | none => rw [harn] at h; exact (Except.ok.inj h).symm
  | some a =>
      rw [harn] at h
      cases hp : env.publishResult "EC2 Stop Notification" m with
      | ok u => rw [hp] at h; exact (Except.ok.inj h).symm
      | error e =>
          cases e with
          | clientError s => rw [hp] at h; exact (Except.ok.inj h).symm
          | otherError s =>
              rw [hp] at h
              rw [handleException_outcome] at h
              cases h

/-! ## Concrete environments used by scenario theorems and witnesses -/

/-- Running instance `i-1` with no tags. -/
def instW1 : Instance := ⟨some "i-1", some []⟩

/-- Running instance `i-2` tagged `Environment=prod`. -/
def instW2 : Instance := ⟨some "i-2", some [⟨some "Environment", some "prod"⟩]⟩

/-- An instance with two tags sharing the key `Environment`: first `dev`,
then `prod`. -/
def instMultiTag : Instance :=
  ⟨some "i-3", some [⟨some "Environment", some "dev"⟩,
                     ⟨some "Environment", some "prod"⟩]⟩

/-- The environment of the spec's worked scenario: both instances running,
exclusion key left at its default `Environment`, exempt values `prod`,
no notification topic, all remote calls succeeding. -/
def envScenario : Env where
  snsTopicArn := none
  excludeTagKeyRaw := none
  excludeTagValuesRaw := some "prod"
  fetchResult := .ok [[instW1, instW2]]
  stopResult := fun _ => .ok ()
  publishResult := fun _ _ => .ok ()

/-! ## Claims -/

/-- C2: `should_exclude` returns true iff the tag list contains an entry
whose key equals the configured exclusion key and whose value is in the
exempt list; it returns false for every instance when the exempt list is
empty; and the exempt list is empty when the `EXCLUDE_TAG_VALUES`
configuration is unset. -/
theorem C2_exclusion_predicate_characterization :
    (∀ (key : String) (vals : List String) (inst : Instance),
        should_exclude key vals inst = true ↔
          ∃ t, t ∈ inst.tags.getD [] ∧ t.key = some key ∧
            ∃ v, t.value = some v ∧ v ∈ vals) ∧
    (∀ (key : String) (inst : Instance), should_exclude key [] inst = false) ∧
    EXCLUDE_TAG_VALUES none = [] := by
  refine ⟨should_exclude_iff, fun key inst => ?_, rfl⟩
  cases h : should_exclude key [] inst with
  | false => rfl
  | true =>
      obtain ⟨t, -, -, v, -, hv⟩ := (should_exclude_iff key [] inst).mp h
      cases hv

/-- C7 counterexample: on a tag list with two `Environment` entries, value
`dev` first and `prod` second, with exempt set `{prod}`, the code's
predicate excludes the instance while the first-occurrence (mapping-lookup)
predicate of the claim does not. -/
theorem C7_counterexample_any_vs_first :
    should_exclude "Environment" ["prod"] instMultiTag = true ∧
    should_exclude_first "Environment" ["prod"] instMultiTag = false := by
  exact ⟨rfl, rfl⟩

/-- C7 (amended): the exclusion predicate tolerates a missing or absent tag
set (treated as no tags, hence not excluded); for a tag list containing
multiple entries with the same key, its decision is a match on ANY
occurrence of the configured key (excluded iff some occurrence carries a
value in the exempt set), not only the first occurrence. -/
theorem C7_amended_missing_tags_and_any_occurrence :
    (∀ (key : String) (vals : List String) (id : Option String),
        should_exclude key vals ⟨id, none⟩ = false) ∧
    (∀ (key : String) (vals : List String) (inst : Instance),
        should_exclude key vals inst = true ↔
          ∃ t, t ∈ inst.tags.getD [] ∧ t.key = some key ∧
            ∃ v, t.value = some v ∧ v ∈ vals) := by
  exact ⟨fun _ _ _ => rfl, should_exclude_iff⟩

/-- C8: on the scenario input — running instances `i-1` (untagged) and
`i-2` (`Environment=prod`), exclusion key `Environment`, exempt set
`{prod}` — the handler stops exactly `['i-1']` and returns the message
`Stopped EC2 instances: ['i-1']`. -/
theorem C8_scenario_stops_i1 :
    (lambda_handler envScenario).stopCalls = [[some "i-1"]] ∧
    (lambda_handler envScenario).outcome =
      .ok ⟨"ok", "Stopped EC2 instances: ['i-1']"⟩ := by
  exact ⟨rfl, rfl⟩

/-- Any list passed to the stop command is exactly the accumulated
`instances_to_stop`. -/
lemma stopCalls_eq_instancesToStop (env : Env) (res : List (List Instance))
    (c : List (Option String)) (h : env.fetchResult = .ok res)
    (hc : c ∈ (lambda_handler env).stopCalls) :
    c = instancesToStop env res := by
  simp only [lambda_handler, h] at hc
  by_cases he : (instancesToStop env res).isEmpty = true
  · rw [if_pos he, finishRun_stopCalls] at hc
    cases hc
  · rw [if_neg he] at hc
    cases hs : env.stopResult (instancesToStop env res) with
    | error e =>
        rw [hs, handleException_stopCalls] at hc
        simpa using hc
    | ok u =>
        rw [hs, finishRun_stopCalls] at hc
        simpa using hc

/-- C1: every identifier list passed to the stop command consists of exactly
the running-state fetched instances minus those whose tag set matches the
configured exclusion; no identifier outside the fetched set appears. -/
theorem C1_stop_set_is_fetched_minus_excluded (env : Env)
    (res : List (List Instance)) (c : List (Option String)) (id : Option String)
    (h : env.fetchResult = .ok res)
    (hc : c ∈ (lambda_handler env).stopCalls) :
    id ∈ c ↔ ∃ inst, inst ∈ res.flatten ∧ inst.instanceId = id ∧
      should_exclude (parseExcludeTagKey env.excludeTagKeyRaw)
        (EXCLUDE_TAG_VALUES env.excludeTagValuesRaw) inst = false := by
  rw [stopCalls_eq_instancesToStop env res c h hc]
  exact mem_instancesToStop env res id

/-- C3: with at least one eligible instance, the stop command is issued
exactly once, with exactly the eligible identifier list, and a returned
summary message lists exactly those identifiers. -/
theorem C3_single_stop_call_with_eligible_ids (env : Env)
    (res : List (List Instance))
    (h1 : env.fetchResult = .ok res)
    (h2 : instancesToStop env res ≠ []) :
    (lambda_handler env).stopCalls = [instancesToStop env res] ∧
    ∀ o, (lambda_handler env).outcome = .ok o →
      o.message =
        "Stopped EC2 instances: " ++ pyReprList (instancesToStop env res) := by
  have he : ¬((instancesToStop env res).isEmpty = true) := by
    simpa [List.isEmpty_iff] using h2
  simp only [lambda_handler, h1]
  rw [if_neg he]
  cases hs : env.stopResult (instancesToStop env res) with
  | error e =>
      refine ⟨handleException_stopCalls .., fun o ho => ?_⟩
      rw [handleException_outcome] at ho
      cases ho
  | ok u =>
      refine ⟨finishRun_stopCalls .., fun o ho => ?_⟩
      rw [finishRun_outcome_ok env _ _ o ho]

/-- C4: with no eligible instance, the stop command is never issued and a
returned summary message is the fixed no-op text. -/
theorem C4_no_eligible_never_stops (env : Env) (res : List (List Instance))
    (h1 : env.fetchResult = .ok res)
    (h2 : instancesToStop env res = []) :
    (lambda_handler env).stopCalls = [] ∧
    ∀ o, (lambda_handler env).outcome = .ok o →
      o.message = "No eligible instances to stop." := by
  have he : (instancesToStop env res).isEmpty = true := by
    rw [h2]; rfl
  simp only [lambda_handler, h1]
  rw [if_pos he]
  refine ⟨finishRun_stopCalls .., fun o ho => ?_⟩
  rw [finishRun_outcome_ok env _ _ o ho]

/-- Environment with no notification topic configured and a failing
inventory fetch. -/
def envNoTopicFetchFail : Env where
  snsTopicArn := none
  excludeTagKeyRaw := none
  excludeTagValuesRaw := none
  fetchResult := .error (.clientError "fetch failed")
  stopResult := fun _ => .ok ()
  publishResult := fun _ _ => .ok ()

/-- Environment with a topic configured, a failing fetch, and a notification
channel that itself fails. -/
def envFetchFailTopic : Env where
  snsTopicArn := some "arn:example:topic"
  excludeTagKeyRaw := none
  excludeTagValuesRaw := none
  fetchResult := .error (.otherError "boom")
  stopResult := fun _ => .ok ()
  publishResult := fun _ _ => .error (.otherError "sns down")

/-- C5 counterexample: with no notification target configured, a failing
fetch propagates but triggers zero error-notification attempts, not exactly
one. -/
theorem C5_counterexample_no_topic_no_attempt :
    (lambda_handler envNoTopicFetchFail).outcome = .error "fetch failed" ∧
    (lambda_handler envNoTopicFetchFail).publishCalls = [] := by
  exact ⟨rfl, rfl⟩

/-- C5 (amended): when the fetch or the stop call raises, the exception is
re-raised to the caller; when a notification target is configured the run
triggers exactly one error-notification attempt with subject
`EC2 Stop Lambda Error` (whatever the publish call itself does — its own
failure is swallowed); with no target configured nothing is published. -/
theorem C5_amended_error_path_notify (env : Env)
    (hfail : (∃ e, env.fetchResult = .error e) ∨
      ∃ res, env.fetchResult = .ok res ∧ instancesToStop env res ≠ [] ∧
        ∃ e, env.stopResult (instancesToStop env res) = .error e) :
    (∃ m, (lambda_handler env).outcome = .error m) ∧
    (∀ arn, env.snsTopicArn = some arn →
      ((lambda_handler env).publishCalls.countP
        (fun p => p.1 == "EC2 Stop Lambda Error")) = 1) ∧
    (env.snsTopicArn = none → (lambda_handler env).publishCalls = []) := by
  rcases hfail with ⟨e, hf⟩ | ⟨res, hf, hne, e, hs⟩
  · simp only [lambda_handler, hf]
    refine ⟨⟨e.msg, handleException_outcome ..⟩, fun arn harn => ?_, fun hnone => ?_⟩
    · rw [handleException_publishCalls env arn [] [] e harn]
      rfl
    · rw [handleException_publishCalls_none env [] [] e hnone]
  · have he : ¬((instancesToStop env res).isEmpty = true) := by
      simpa [List.isEmpty_iff] using hne
    simp only [lambda_handler, hf]
    rw [if_neg he, hs]
    refine ⟨⟨e.msg, handleException_outcome ..⟩, fun arn harn => ?_, fun hnone => ?_⟩
    · rw [handleException_publishCalls env arn _ [] e harn]
      rfl
    · rw [handleException_publishCalls_none env _ [] e hnone]

/-- C5 witness: fetch fails with a topic configured and a broken
notification channel; the exception propagates and exactly one error
notification is attempted. -/
theorem C5_amended_witness :
    (∃ m, (lambda_handler envFetchFailTopic).outcome = .error m) ∧
    (∀ arn, envFetchFailTopic.snsTopicArn = some arn →
      ((lambda_handler envFetchFailTopic).publishCalls.countP
        (fun p => p.1 == "EC2 Stop Lambda Error")) = 1) ∧
    (envFetchFailTopic.snsTopicArn = none →
      (lambda_handler envFetchFailTopic).publishCalls = []) :=
  C5_amended_error_path_notify envFetchFailTopic
    (Or.inl ⟨.otherError "boom", rfl⟩)

/-- If every failure the success-path publish can produce is a
`ClientError`, `finishRun` returns the ok dict. -/
lemma finishRun_ok_of_clientError (env : Env) (m : String)
    (stops : List (List (Option String)))
    (h3 : ∀ e, env.publishResult "EC2 Stop Notification" m = .error e →
      ∃ s, e = .clientError s) :
    (finishRun env m stops).outcome = .ok ⟨"ok", m⟩ := by
  unfold finishRun
  cases env.snsTopicArn with
  | none => rfl
  | some a =>
      cases hp : env.publishResult "EC2 Stop Notification" m with
      | ok u => rfl
      | error e =>
          cases e with
          | clientError s => rfl
          | otherError s =>
              obtain ⟨s', hs⟩ := h3 _ hp
              cases hs

/-- Environment where all primary steps succeed but the notification
publish raises a non-`ClientError` exception. -/
def envPublishCrash : Env where
  snsTopicArn := some "arn:example:topic"
  excludeTagKeyRaw := none
  excludeTagValuesRaw := none
  fetchResult := .ok []
  stopResult := fun _ => .ok ()
  publishResult := fun _ _ => .error (.otherError "connection reset")

/-- Environment where all primary steps succeed and the notification
publish raises a `ClientError`. -/
def envPublishThrottled : Env where
  snsTopicArn := some "arn:example:topic"
  excludeTagKeyRaw := none
  excludeTagValuesRaw := none
  fetchResult := .ok []
  stopResult := fun _ => .ok ()
  publishResult := fun _ _ => .error (.clientError "Throttling")

/-- C6 counterexample: the fetch succeeds and no stop is needed, yet a
non-`ClientError` exception from the success-path publish escapes the
handler (which catches only `ClientError`) and the run raises instead of
returning the ok outcome. -/
theorem C6_counterexample_non_clienterror_publish :
    envPublishCrash.fetchResult = .ok [] ∧
    (lambda_handler envPublishCrash).stopCalls = [] ∧
    (lambda_handler envPublishCrash).outcome =
      Except.error "connection reset" := by
  exact ⟨rfl, rfl, rfl⟩

/-- C6 (amended): given the fetch/filter/stop steps succeed, a failure of
the success-path publish never changes the returned status from ok,
provided the publish raises only `ClientError` (the exception class the
handler catches); other exception classes escape and fail the run. -/
theorem C6_amended_clienterror_never_fails_run (env : Env)
    (res : List (List Instance))
    (h1 : env.fetchResult = .ok res)
    (h2 : instancesToStop env res = [] ∨
      env.stopResult (instancesToStop env res) = .ok ())
    (h3 : ∀ m e, env.publishResult "EC2 Stop Notification" m = .error e →
      ∃ s, e = .clientError s) :
    ∃ o, (lambda_handler env).outcome = .ok o ∧ o.status = "ok" := by
  by_cases he : (instancesToStop env res).isEmpty = true
  · refine ⟨⟨"ok", "No eligible instances to stop."⟩, ?_, rfl⟩
    simp only [lambda_handler, h1]
    rw [if_pos he]
    exact finishRun_ok_of_clientError env _ [] (h3 _)
  · have hstop : env.stopResult (instancesToStop env res) = .ok () := by
      rcases h2 with h2 | h2
      · exact absurd (by rw [h2]; rfl) he
      · exact h2
    refine ⟨⟨"ok", "Stopped EC2 instances: " ++
      pyReprList (instancesToStop env res)⟩, ?_, rfl⟩
    simp only [lambda_handler, h1]
    rw [if_neg he, hstop]
    exact finishRun_ok_of_clientError env _ _ (h3 _)

/-- C6 witness: with a `ClientError`-raising publish and an empty fleet, the
run still returns the ok outcome. -/
theorem C6_amended_witness :
    ∃ o, (lambda_handler envPublishThrottled).outcome = .ok o ∧
      o.status = "ok" :=
  C6_amended_clienterror_never_fails_run envPublishThrottled [] rfl
    (Or.inl rfl)
    (fun m e h => ⟨"Throttling", by injection h with h2; exact h2.symm⟩)

/-- When `finishRun` returns (topic configured), it has published exactly
one notification whose body is the returned message. -/
lemma finishRun_publishCalls_of_ok (env : Env) (m : String)
    (stops : List (List (Option String))) (arn : String) (o : Outcome)
    (h1 : env.snsTopicArn = some arn)
    (h2 : (finishRun env m stops).outcome = .ok o) :
    (finishRun env m stops).publishCalls =
      [("EC2 Stop Notification", o.message)] := by
  have hm := finishRun_outcome_ok env m stops o h2
  subst hm
  unfold finishRun at h2 ⊢
  rw [h1] at h2 ⊢
  cases hp : env.publishResult "EC2 Stop Notification" m with
  | ok u => rfl
  | error e =>
      cases e with
      | clientError s => rfl
      | otherError s =>
          rw [hp, handleException_outcome] at h2
          cases h2

/-- Environment with a topic configured, an empty fleet and a working
notification channel. -/
def envNoInstances : Env where
  snsTopicArn := some "arn:example:topic"
  excludeTagKeyRaw := none
  excludeTagValuesRaw := none
  fetchResult := .ok []
  stopResult := fun _ => .ok ()
  publishResult := fun _ _ => .ok ()

/-- C9: on every run that returns with a notification target configured,
the body handed to the success-path publish is character-for-character the
message of the returned outcome (and that publish is the only one made). -/
theorem C9_publish_body_eq_returned_message (env : Env) (arn : String)
    (o : Outcome)
    (h1 : env.snsTopicArn = some arn)
    (h2 : (lambda_handler env).outcome = .ok o) :
    (lambda_handler env).publishCalls =
      [("EC2 Stop Notification", o.message)] := by
  cases hf : env.fetchResult with
  | error e =>
      simp only [lambda_handler, hf] at h2
      rw [handleException_outcome] at h2
      cases h2
  | ok res =>
      simp only [lambda_handler, hf] at h2 ⊢
      by_cases he : (instancesToStop env res).isEmpty = true
      · rw [if_pos he] at h2 ⊢
        exact finishRun_publishCalls_of_ok env _ [] arn o h1 h2
      · rw [if_neg he] at h2 ⊢
        cases hs : env.stopResult (instancesToStop env res) with
        | error e =>
            rw [hs, handleException_outcome] at h2
            cases h2
        | ok u =>
            rw [hs] at h2
            exact finishRun_publishCalls_of_ok env _ _ arn o h1 h2

/-- C9 witness: empty fleet, topic configured; the published body equals the
returned message. -/
theorem C9_witness :
    (lambda_handler envNoInstances).publishCalls =
      [("EC2 Stop Notification", "No eligible instances to stop.")] :=
  C9_publish_body_eq_returned_message envNoInstances "arn:example:topic"
    ⟨"ok", "No eligible instances to stop."⟩ rfl rfl

/-- C10: whenever `lambda_handler` returns (rather than raising), the
returned status is `ok`; a returned status `error` is unreachable. -/
theorem C10_returned_status_always_ok (env : Env) (o : Outcome)
    (h : (lambda_handler env).outcome = .ok o) :
    o.status = "ok" := by
  cases hf : env.fetchResult with
  | error e =>
      simp only [lambda_handler, hf] at h
      rw [handleException_outcome] at h
      cases h
  | ok res =>
      simp only [lambda_handler, hf] at h
      by_cases he : (instancesToStop env res).isEmpty = true
      · rw [if_pos he] at h
        rw [finishRun_outcome_ok env _ _ o h]
      · rw [if_neg he] at h
        cases hs : env.stopResult (instancesToStop env res) with
        | error e =>
            rw [hs, handleException_outcome] at h
            cases h
        | ok u =>
            rw [hs] at h
            rw [finishRun_outcome_ok env
              ("Stopped EC2 instances: " ++ pyReprList (instancesToStop env res))
              [instancesToStop env res] o h]

/-- C10 witness: the empty-fleet run returns, and its status is `ok`. -/
theorem C10_witness :
    (lambda_handler envNoInstances).outcome =
      .ok ⟨"ok", "No eligible instances to stop."⟩ ∧
    (Outcome.mk "ok" "No eligible instances to stop.").status = "ok" :=
  ⟨rfl, C10_returned_status_always_ok envNoInstances
    ⟨"ok", "No eligible instances to stop."⟩ rfl⟩

/-- C1 witness: in the worked scenario, `i-1` is in the one issued stop call
iff it is a fetched, non-excluded instance id. -/
theorem C1_witness :
    some "i-1" ∈ ([some "i-1"] : List (Option String)) ↔
      ∃ inst, inst ∈ ([[instW1, instW2]] : List (List Instance)).flatten ∧
        inst.instanceId = some "i-1" ∧
        should_exclude (parseExcludeTagKey envScenario.excludeTagKeyRaw)
          (EXCLUDE_TAG_VALUES envScenario.excludeTagValuesRaw) inst = false :=
  C1_stop_set_is_fetched_minus_excluded envScenario [[instW1, instW2]]
    [some "i-1"] (some "i-1") rfl (by decide)

/-- C3 witness: the worked scenario has one eligible instance; the stop
command is issued once with exactly its id, and the returned message lists
it. -/
theorem C3_witness :
    (lambda_handler envScenario).stopCalls =
      [instancesToStop envScenario [[instW1, instW2]]] ∧
    ∀ o, (lambda_handler envScenario).outcome = .ok o →
      o.message = "Stopped EC2 instances: " ++
        pyReprList (instancesToStop envScenario [[instW1, instW2]]) :=
  C3_single_stop_call_with_eligible_ids envScenario [[instW1, instW2]] rfl
    (by decide)

/-- C4 witness: with an empty fleet no stop call is made and the returned
message is the fixed no-op text. -/
theorem C4_witness :
    (lambda_handler envNoInstances).stopCalls = [] ∧
    ∀ o, (lambda_handler envNoInstances).outcome = .ok o →
      o.message = "No eligible instances to stop." :=
  C4_no_eligible_never_stops envNoInstances [] rfl rfl
